import Mathlib

/-!
Shallow embedding of the Gem-rs Gemini API client (src/api.rs, src/client.rs,
src/types.rs) and verification of claims about it.

HTTP transport, JSON (de)serialization (serde), SHA-256 digests and clock
reads are external library effects; they enter the model as explicit
parameters (an outcome value for a network exchange, a parse function for a
body string, a digest function for a byte buffer, a precomputed RFC-3339
threshold string for the clock).  Everything the repository itself computes
is embedded as executable Lean definitions mirroring the Rust source.
-/

namespace GemRs

/-- Role of a conversation turn (types.rs, enum Role). -/
inductive Role where
  | Model
  | User
deriving DecidableEq, Repr

/-- Inline blob data (types.rs, struct Blob).  The base64 payload is kept as
the already-encoded string. -/
structure Blob where
  mime_type : String
  data : String
deriving DecidableEq, Repr

/-- Reference to an uploaded file (types.rs, struct FileData). -/
structure FileData where
  mime_type : String
  file_uri : String
deriving DecidableEq, Repr

/-- Union of the possible payloads of a part (types.rs, enum PartData). -/
inductive PartData where
  | inlineData (inline_data : Blob)
  | fileData (file_data : FileData)
  | text (t : String)
deriving DecidableEq, Repr

/-- One part of a content object (types.rs, struct Part). -/
structure Part where
  data : PartData
deriving DecidableEq, Repr

/-- One conversation turn (types.rs, struct Content). -/
structure Content where
  parts : List Part
  role : Option Role
deriving DecidableEq, Repr

/-- Content without a role, used for the system instruction
(types.rs, struct NoRoleContent). -/
structure NoRoleContent where
  parts : List Part
deriving DecidableEq, Repr

/-- Content.get_text (types.rs): the text of the first Text part, if any. -/
def Content.get_text (c : Content) : Option String :=
  c.parts.findSome? fun p =>
    match p.data with
    | PartData.text t => some t
    | _ => none

/-- Finish reason of a candidate (types.rs, enum FinishReason). -/
inductive FinishReason where
  | FinishReasonUnspecified
  | Stop
  | MaxTokens
  | Safety
  | Recitation
  | Language
  | Other
  | Blocklist
  | ProhibitedContent
  | Spii
  | MalformedFunctionCall
deriving DecidableEq, Repr

/-- A safety rating entry of a response (types.rs, struct SafetyRating). -/
structure SafetyRating where
  category : Option String
  probability : Option String
  blocked : Option Bool
deriving DecidableEq, Repr

/-- Reason a prompt was blocked (types.rs, enum BlockReason). -/
inductive BlockReason where
  | BlockReasonUnspecified
  | Safety
  | Other
  | Blocklist
  | ProhibitedContent
deriving DecidableEq, Repr

/-- Display impl for BlockReason (types.rs, impl Display for BlockReason). -/
def BlockReason.display : BlockReason → String
  | BlockReason.BlockReasonUnspecified => "Unspecified"
  | BlockReason.Safety => "Safety"
  | BlockReason.Other => "Other"
  | BlockReason.Blocklist => "Blocklist"
  | BlockReason.ProhibitedContent => "Prohibited Content"

/-- Prompt feedback block of a response (types.rs, struct PromptFeedback). -/
structure PromptFeedback where
  block_reason : Option BlockReason
  safety_ratings : List SafetyRating
deriving DecidableEq, Repr

/-- Token usage block of a response (types.rs, struct UsageMetadata). -/
structure UsageMetadata where
  prompt_token_count : Option Int
  cached_content_token_count : Option Int
  candidates_token_count : Option Int
  total_token_count : Option Int
deriving DecidableEq, Repr

/-- One response candidate (types.rs, struct Candidate). -/
structure Candidate where
  content : Option Content
  finish_reason : Option FinishReason
  safety_ratings : Option (List SafetyRating)
  token_count : Option Int
  index : Option Int
deriving DecidableEq, Repr

/-- Candidate.get_content (types.rs). -/
def Candidate.get_content (c : Candidate) : Option Content :=
  c.content

/-- Typed response of the generateContent endpoint
(types.rs, struct GenerateContentResponse). -/
structure GenerateContentResponse where
  candidates : List Candidate
  prompt_feedback : Option PromptFeedback
  usage_metadata : Option UsageMetadata
deriving DecidableEq, Repr

/-- GenerateContentResponse.get_candidates (types.rs). -/
def GenerateContentResponse.get_candidates (r : GenerateContentResponse) :
    List Candidate :=
  r.candidates

/-- GenerateContentResponse.feedback (types.rs): the block reason when the
prompt feedback is present and carries one. -/
def GenerateContentResponse.feedback (r : GenerateContentResponse) :
    Option BlockReason :=
  match r.prompt_feedback with
  | some pf => pf.block_reason
  | none => none

/-- Harm category of a safety setting (types.rs, enum HarmCategory). -/
inductive HarmCategory where
  | HarmCategoryHateSpeech
  | HarmCategorySexuallyExplicit
  | HarmCategoryDangerousContent
  | HarmCategoryHarassment
deriving DecidableEq, Repr

/-- Harm block threshold (types.rs, enum HarmBlockThreshold). -/
inductive HarmBlockThreshold where
  | HarmBlockThresholdUnspecified
  | BlockLowAndAbove
  | BlockMediumAndAbove
  | BlockOnlyHigh
  | BlockNone
deriving DecidableEq, Repr

/-- One safety setting of a request (types.rs, struct SafetySetting). -/
structure SafetySetting where
  category : HarmCategory
  threshold : HarmBlockThreshold
deriving DecidableEq, Repr

/-- Generation configuration (types.rs, struct GenerationConfig).  The Rust
f32 fields carry literal values that are only stored and copied, never
computed with, so they are embedded as rationals. -/
structure GenerationConfig where
  stop_sequences : Option (List String)
  response_mime_type : Option String
  max_output_tokens : Option Nat
  temperature : Option ℚ
  top_p : Option ℚ
  top_k : Option Nat
deriving DecidableEq, Repr

/-- Request-side settings (types.rs, struct Settings). -/
structure Settings where
  safety_settings : Option (List SafetySetting)
  generation_config : Option GenerationConfig
  system_instruction : Option String
deriving DecidableEq, Repr

/-- Conversation history (types.rs, struct Context). -/
structure Context where
  contents : List Content
deriving DecidableEq, Repr

/-- Wire shape of a generateContent request
(types.rs, struct GenerateContentRequest). -/
structure GenerateContentRequest where
  contents : List Content
  safety_settings : Option (List SafetySetting)
  generation_config : Option GenerationConfig
  system_instruction : Option NoRoleContent
deriving DecidableEq, Repr

/-- GenerateContentRequest::new (types.rs): fills in the built-in default
safety settings and generation config when none are provided. -/
def GenerateContentRequest.new (context : Context)
    (config : Option GenerationConfig) (safety : Option (List SafetySetting))
    (system_instruction : Option NoRoleContent) : GenerateContentRequest :=
  { contents := context.contents
    safety_settings :=
      match safety with
      | some s => some s
      | none => some
          [ { category := HarmCategory.HarmCategoryHateSpeech
              threshold := HarmBlockThreshold.BlockNone }
          , { category := HarmCategory.HarmCategorySexuallyExplicit
              threshold := HarmBlockThreshold.BlockNone }
          , { category := HarmCategory.HarmCategoryDangerousContent
              threshold := HarmBlockThreshold.BlockNone }
          , { category := HarmCategory.HarmCategoryHarassment
              threshold := HarmBlockThreshold.BlockNone } ]
    generation_config :=
      match config with
      | some c => some c
      | none => some
          { stop_sequences := none
            response_mime_type := none
            max_output_tokens := some 8192
            temperature := some 1
            top_p := none
            top_k := none }
    system_instruction := system_instruction }

namespace Context

/-- Context::new (types.rs). -/
def new : Context := { contents := [] }

/-- Context::push_message (types.rs). -/
def push_message (ctx : Context) (role : Option Role) (content : String) :
    Context :=
  { contents := ctx.contents ++
      [{ parts := [{ data := PartData.text content }], role := role }] }

/-- Context::push_file (types.rs). -/
def push_file (ctx : Context) (role : Option Role) (file_data : FileData) :
    Context :=
  { contents := ctx.contents ++
      [{ parts := [{ data := PartData.fileData file_data }], role := role }] }

/-- Context::push_blob (types.rs). -/
def push_blob (ctx : Context) (role : Option Role) (blob : Blob) : Context :=
  { contents := ctx.contents ++
      [{ parts := [{ data := PartData.inlineData blob }], role := role }] }

/-- Context::push_message_with_file (types.rs). -/
def push_message_with_file (ctx : Context) (role : Option Role)
    (content : String) (file_data : FileData) : Context :=
  { contents := ctx.contents ++
      [{ parts := [ { data := PartData.text content }
                  , { data := PartData.fileData file_data } ]
         role := role }] }

/-- Context::push_message_with_blob (types.rs). -/
def push_message_with_blob (ctx : Context) (role : Option Role)
    (content : String) (blob : Blob) : Context :=
  { contents := ctx.contents ++
      [{ parts := [ { data := PartData.text content }
                  , { data := PartData.inlineData blob } ]
         role := role }] }

/-- Context::build (types.rs): serialize the history plus the settings into
the wire request shape. -/
def build (ctx : Context) (settings : Settings) : GenerateContentRequest :=
  GenerateContentRequest.new ctx settings.generation_config
    settings.safety_settings
    (match settings.system_instruction with
     | some instruction =>
         some { parts := [{ data := PartData.text instruction }] }
     | none => none)

/-- Context::clear (types.rs). -/
def clear (_ctx : Context) : Context := { contents := [] }

/-- Context::is_empty (types.rs). -/
def is_empty (ctx : Context) : Bool := ctx.contents.isEmpty

/-- Context::len (types.rs). -/
def len (ctx : Context) : Nat := ctx.contents.length

/-- Context::get_contents (types.rs). -/
def get_contents (ctx : Context) : List Content := ctx.contents

end Context

/-- The state-mutating operations offered by Context (types.rs, impl
Context).  get_contents_mut hands the caller a mutable reference to the
whole list; a caller's use of it is modelled as applying an arbitrary
function to the list. -/
inductive ContextOp where
  | push_message (role : Option Role) (content : String)
  | push_file (role : Option Role) (file_data : FileData)
  | push_blob (role : Option Role) (blob : Blob)
  | push_message_with_file (role : Option Role) (content : String)
      (file_data : FileData)
  | push_message_with_blob (role : Option Role) (content : String)
      (blob : Blob)
  | clear
  | get_contents_mut (f : List Content → List Content)

/-- Effect of a Context operation on the conversation history. -/
def ContextOp.apply : ContextOp → Context → Context
  | ContextOp.push_message role content, ctx => ctx.push_message role content
  | ContextOp.push_file role fd, ctx => ctx.push_file role fd
  | ContextOp.push_blob role b, ctx => ctx.push_blob role b
  | ContextOp.push_message_with_file role content fd, ctx =>
      ctx.push_message_with_file role content fd
  | ContextOp.push_message_with_blob role content b, ctx =>
      ctx.push_message_with_blob role content b
  | ContextOp.clear, ctx => ctx.clear
  | ContextOp.get_contents_mut f, ctx => { contents := f ctx.contents }

/-- HTTP status code of a response.  The source matches the code against
reqwest's StatusCode::OK (code 200) and interpolates the status with its
Display impl, which prints the numeric code followed by the canonical
reason phrase. -/
structure StatusCode where
  code : Nat
  canonical_reason : String
deriving DecidableEq, Repr

/-- Display rendering of a status code, as reqwest's StatusCode prints it. -/
def StatusCode.display (st : StatusCode) : String :=
  toString st.code ++ " " ++ st.canonical_reason

/-- Typed error body returned by the API on failure (types.rs, struct
Error). -/
structure Error where
  code : Int
  message : String
  status : String
deriving DecidableEq, Repr

/-- Error codes of the crate (src/errors.rs is not among the provided
sources; the variants and their payloads are reconstructed from every use
site in client.rs and types.rs, with library error values carried as
their rendered strings). -/
inductive GemError where
  | ConnectionError (e : String)
  | ResponseError (e : String) (status : StatusCode)
  | ParsingError (e : String)
  | GeminiAPIError (err : Error)
  | EmptyApiResponse
  | FeedbackError (reason : String)
  | AllCandidatesBlocked
  | StreamError (msg : String)
  | FileError (msg : String)
deriving DecidableEq, Repr

/-- Outcome of the POST exchange performed by Client::send_context
(client.rs): the connection may fail, reading the body text may fail, or a
status code and body text are obtained.  The network is external, so the
outcome is a parameter of the model. -/
inductive HttpSendOutcome where
  | connFailure (e : String)
  | textFailure (status : StatusCode) (e : String)
  | body (status : StatusCode) (text : String)
deriving Repr

/-- Candidate checks that Client::send_context (client.rs, lines 204 to 225)
applies to a successfully parsed response: an empty candidate list is
rejected, and a response in which no candidate has content is rejected with
the prompt-feedback block reason when one is present. -/
def candidate_gate (response : GenerateContentResponse) :
    Except GemError GenerateContentResponse :=
  if response.get_candidates.length = 0 then
    Except.error GemError.EmptyApiResponse
  else if response.get_candidates.all fun c => c.get_content.isNone then
    match response.feedback with
    | some reason =>
        Except.error (GemError.FeedbackError reason.display)
    | none => Except.error GemError.AllCandidatesBlocked
  else
    Except.ok response

/-- Client::send_context (client.rs).  serde_json::from_str is external; the
two typed deserializations of the body are passed in as functions from the
body text to a parse result. -/
def Client.send_context
    (parseResponse : String → Except String GenerateContentResponse)
    (parseApiError : String → Except String Error)
    (outcome : HttpSendOutcome) : Except GemError GenerateContentResponse :=
  match outcome with
  | HttpSendOutcome.connFailure e =>
      Except.error (GemError.ConnectionError e)
  | HttpSendOutcome.textFailure status e =>
      Except.error (GemError.ResponseError e status)
  | HttpSendOutcome.body status text =>
      if status.code = 200 then
        match parseResponse text with
        | Except.ok response => candidate_gate response
        | Except.error e => Except.error (GemError.ParsingError e)
      else
        match parseApiError text with
        | Except.ok err => Except.error (GemError.GeminiAPIError err)
        | Except.error e => Except.error (GemError.ParsingError e)

/-- Outcome of the POST exchange performed by Client::send_context_stream
(client.rs): either the connection fails or a response with a status code
and a body arrives. -/
inductive StreamHttpOutcome where
  | connFailure (e : String)
  | resp (status : StatusCode) (body : String)
deriving Repr

/-- The stream value built on the OK path of Client::send_context_stream:
reqwest_streams' json_array_stream applied to the response body (the
decoder itself is the external streaming-JSON utility). -/
structure JsonStream where
  source_body : String
deriving DecidableEq, Repr

/-- Client::send_context_stream (client.rs, lines 229 to 273). -/
def Client.send_context_stream (outcome : StreamHttpOutcome) :
    Except GemError JsonStream :=
  match outcome with
  | StreamHttpOutcome.connFailure e =>
      Except.error (GemError.ConnectionError e)
  | StreamHttpOutcome.resp status body =>
      if status.code = 200 then
        Except.ok { source_body := body }
      else
        Except.error (GemError.StreamError
          ("Response error: " ++ body ++ " (status code: " ++
            status.display ++ ")"))

/-- The innermost step of GemSession::send_message (client.rs, lines 310
to 318): given the text of the first candidate's content, push it as a
Model turn; a contentful candidate without text aborts with
EmptyApiResponse. -/
def GemSession.append_model_text (ctx1 : Context)
    (resp : GenerateContentResponse) :
    Option String → Context × Except GemError GenerateContentResponse
  | some text =>
      (ctx1.push_message (some Role.Model) text, Except.ok resp)
  | none => (ctx1, Except.error GemError.EmptyApiResponse)

/-- The middle if-let of GemSession::send_message: dispatch on the first
candidate's content; without content the response is returned with no
further push. -/
def GemSession.handle_content (ctx1 : Context)
    (resp : GenerateContentResponse) :
    Option Content → Context × Except GemError GenerateContentResponse
  | some content =>
      GemSession.append_model_text ctx1 resp content.get_text
  | none => (ctx1, Except.ok resp)

/-- The outer if-let of GemSession::send_message: dispatch on the first
candidate of the response. -/
def GemSession.handle_candidate (ctx1 : Context)
    (resp : GenerateContentResponse) :
    Option Candidate → Context × Except GemError GenerateContentResponse
  | some candidate =>
      GemSession.handle_content ctx1 resp candidate.get_content
  | none => (ctx1, Except.ok resp)

/-- GemSession::send_message (client.rs, lines 301 to 321): push the
caller's message, send the context, and on success push the first
candidate's text back as a Model turn.  The session's context is threaded
explicitly; the network outcome and body parsers are parameters as in
Client.send_context.  (client.rs passes a bare Role where types.rs's
push_message takes Option of Role; the call is embedded as passing some
role.) -/
def GemSession.send_message
    (parseResponse : String → Except String GenerateContentResponse)
    (parseApiError : String → Except String Error)
    (outcome : HttpSendOutcome) (ctx : Context) (message : String)
    (role : Role) : Context × Except GemError GenerateContentResponse :=
  let ctx1 := ctx.push_message (some role) message
  match Client.send_context parseResponse parseApiError outcome with
  | Except.error e => (ctx1, Except.error e)
  | Except.ok response =>
      GemSession.handle_candidate ctx1 response
        response.get_candidates.head?

/-- Error status attached to a failed file (types.rs, struct Status). -/
structure Status where
  code : Int
  message : String
deriving DecidableEq, Repr

/-- Video metadata of an uploaded file (types.rs, struct VideoMetadata). -/
structure VideoMetadata where
  video_duration : String
deriving DecidableEq, Repr

/-- An uploaded file handle (types.rs, struct File). -/
structure File where
  name : String
  uri : String
  display_name : String
  mime_type : String
  size_bytes : String
  create_time : String
  update_time : String
  expiration_time : String
  sha256_hash : String
  state : String
  error : Option Status
  video_metadata : Option VideoMetadata
  api_key : String
deriving DecidableEq, Repr

/-- Outcome of one iteration of the state-polling GET inside File::upload
(types.rs): the request may fail, reading its text may fail, parsing the
text as a File may fail, or a parsed File is obtained. -/
inductive PollResult where
  | connErr (e : String)
  | textErr (e : String)
  | parseErr
  | state (f : File)
deriving Repr

/-- The state-polling loop of File::upload (types.rs, lines 357 to 414).
poll gives the outcome of the i-th GET on the file's metadata; timeout is
the retry counter, starting at 0.  The loop breaks with Ok when the state
is ACTIVE, fails on FAILED or an unrecognized state, and gives up with a
timeout error once the counter has reached 3. -/
def File.poll_loop (poll : Nat → PollResult) (i : Nat) (timeout : Nat) :
    Except GemError Unit :=
  match poll i with
  | PollResult.connErr e => Except.error (GemError.FileError e)
  | PollResult.textErr e => Except.error (GemError.FileError e)
  | PollResult.parseErr =>
      Except.error (GemError.FileError "File data not found")
  | PollResult.state file_state =>
      if file_state.state = "ACTIVE" then
        Except.ok ()
      else if file_state.state = "FAILED" then
        Except.error (GemError.FileError
          ((file_state.error.getD
              { code := 0, message := "File processing failed" }).message))
      else if file_state.state ≠ "PROCESSING" then
        Except.error (GemError.FileError "File processing unknown state")
      else if h : 3 ≤ timeout then
        Except.error (GemError.FileError "File processing timeout")
      else
        File.poll_loop poll (i + 1) (timeout + 1)
termination_by 3 - timeout
decreasing_by omega

/-- The file cache of FileManager (types.rs): a HashMap from content hash
to File, embedded as an association list iterated in order; HashMap keys
are unique, which theorems assume where it matters. -/
abbrev FileCache := List (String × File)

/-- HashMap::insert on the association-list embedding: replaces any entry
with the same key. -/
def FileCache.insert (files : FileCache) (hash : String) (file : File) :
    FileCache :=
  (List.filter (fun entry => entry.1 ≠ hash) files) ++ [(hash, file)]

/-- The scan inside FileManager::get_file (types.rs, lines 537 to 566):
walk the cache entries; on a key match whose expiration time compares
after the threshold string (the code compares RFC-3339 strings with
String order), return the cached FileData at once; on a key match that is
expired, record it for removal and keep scanning. -/
def FileManager.get_file_scan (hash : String) (threshold : String) :
    List (String × File) → List String → Option FileData × List String
  | [], to_remove => (none, to_remove)
  | entry :: rest, to_remove =>
      if entry.1 = hash then
        if threshold < entry.2.expiration_time then
          (some { mime_type := entry.2.mime_type
                  file_uri := entry.2.uri }, to_remove)
        else
          FileManager.get_file_scan hash threshold rest (to_remove ++ [entry.1])
      else
        FileManager.get_file_scan hash threshold rest to_remove

/-- FileManager::get_file (types.rs): on a fresh cached hit the cache is
left untouched and the handle's FileData is returned; otherwise the expired
entries recorded under this hash are removed from the cache (each is also
deleted remotely, an external effect) and None is returned.  threshold is
the precomputed RFC-3339 rendering of now plus 10 minutes. -/
def FileManager.get_file (files : FileCache) (hash : String)
    (threshold : String) : Option FileData × FileCache :=
  match FileManager.get_file_scan hash threshold files [] with
  | (some fd, _) => (some fd, files)
  | (none, to_remove) =>
      (none, List.filter (fun entry => ¬ entry.1 ∈ to_remove) files)

/-- FileManager::add_file_from_bytes (types.rs, lines 460 to 481): hash the
bytes, return the cached handle when get_file finds a fresh one, and
otherwise upload and insert the resulting File under the hash.  The SHA-256
digest and the network upload are external: digest is passed as a function
on the byte buffer and the result of File::new as an Except value. -/
def FileManager.add_file_from_bytes (digest : List Nat → String)
    (upload : Except GemError File) (files : FileCache) (bytes : List Nat)
    (threshold : String) : Except GemError FileData × FileCache :=
  match FileManager.get_file files (digest bytes) threshold with
  | (some file, files1) => (Except.ok file, files1)
  | (none, files1) =>
      match upload with
      | Except.error e => (Except.error e, files1)
      | Except.ok file =>
          (Except.ok { mime_type := file.mime_type, file_uri := file.uri },
           files1.insert (digest bytes) file)

/-- Gemini model identifiers (api.rs, enum Models). -/
inductive Models where
  | Gemini15ProExp0827
  | Gemini15FlashExp0827
  | Gemini15Flash8bExp0827
  | Gemini15Pro
  | Gemini2FlashExp
  | Gemini2Flash
  | Gemini2FlashLite
  | Gemini2FlashThinkingExp
  | Gemini2ProExp1206
  | Gemini2ProExp
  | Gemini25ProExp
  | Gemini15Flash
  | Gemini10Pro
  | Gemma2_2bIt
  | Gemma2_9bIt
  | Gemma2_27bIt
  | Custom (model : String)
deriving DecidableEq, Repr

/-- The serde rename string of each named variant (api.rs, the serde
rename attributes on Models). -/
def Models.serde_rename : Models → String
  | Models.Gemini15ProExp0827 => "gemini-1.5-pro-exp-0827"
  | Models.Gemini15FlashExp0827 => "gemini-1.5-flash-exp-0827"
  | Models.Gemini15Flash8bExp0827 => "gemini-1.5-flash-8b-exp-0827"
  | Models.Gemini15Pro => "gemini-1.5-pro"
  | Models.Gemini2FlashExp => "gemini-2.0-flash-exp"
  | Models.Gemini2Flash => "gemini-2.0-flash"
  | Models.Gemini2FlashLite => "gemini-2.0-flash-lite"
  | Models.Gemini2FlashThinkingExp => "gemini-2.0-flash-thinking-exp-01-21"
  | Models.Gemini2ProExp1206 => "gemini-exp-1206"
  | Models.Gemini2ProExp => "gemini-2.0-pro-exp-02-05"
  | Models.Gemini25ProExp => "gemini-2.5-pro-preview-05-06"
  | Models.Gemini15Flash => "gemini-1.5-flash"
  | Models.Gemini10Pro => "gemini-1.0-pro"
  | Models.Gemma2_2bIt => "gemma-2-2b-it"
  | Models.Gemma2_9bIt => "gemma-2-9b-it"
  | Models.Gemma2_27bIt => "gemma-2-27b-it"
  | Models.Custom _ => ""

/-- Rust str::replace of the one-character pattern double-quote by the
empty string: every double-quote character is removed. -/
def removeQuotes (s : String) : String :=
  String.mk (s.data.filter fun c => c ≠ '\x22')

/-- serde_json::to_string of a renamed unit variant of Models: the rename
string wrapped in double quotes. -/
def Models.serde_json_to_string (m : Models) : String :=
  "\x22" ++ m.serde_rename ++ "\x22"

/-- impl ToString for Models (api.rs, lines 91 to 98): Custom yields its
string with double quotes removed, every other variant its serde JSON
serialization with double quotes removed. -/
def Models.to_string : Models → String
  | Models.Custom model => removeQuotes model
  | m => removeQuotes m.serde_json_to_string

/-! Concrete fixtures used to instantiate the theorems below. -/

/-- A 200 OK status. -/
def okStatus : StatusCode := { code := 200, canonical_reason := "OK" }

/-- A 400 Bad Request status. -/
def badStatus : StatusCode := { code := 400, canonical_reason := "Bad Request" }

/-- A candidate with no content and no metadata. -/
def emptyCandidate : Candidate :=
  { content := none, finish_reason := none, safety_ratings := none
    token_count := none, index := none }

/-- A model-role content holding a single text part. -/
def modelTextContent (t : String) : Content :=
  { parts := [{ data := PartData.text t }], role := some Role.Model }

/-- A candidate carrying a single text part. -/
def textCandidate (t : String) : Candidate :=
  { emptyCandidate with content := some (modelTextContent t) }

/-- A response whose first candidate has no content while its second one
does; it passes the candidate checks of Client::send_context. -/
def respFirstNoContent : GenerateContentResponse :=
  { candidates := [emptyCandidate, textCandidate "hi"]
    prompt_feedback := none, usage_metadata := none }

/-- A response with a single text candidate. -/
def respGood : GenerateContentResponse :=
  { candidates := [textCandidate "hello"]
    prompt_feedback := none, usage_metadata := none }

/-- An uploaded file handle in a given processing state with a given
expiration time. -/
def sampleFile (st : String) (expiration : String) : File :=
  { name := "files/abc", uri := "https://files/abc", display_name := "abc"
    mime_type := "text/plain", size_bytes := "3"
    create_time := "2026-01-01T00:00:00+00:00"
    update_time := "2026-01-01T00:00:00+00:00"
    expiration_time := expiration, sha256_hash := "deadbeef", state := st
    error := none, video_metadata := none, api_key := "" }

end GemRs

namespace GemRs

/-! Theorems. -/

/-- Helper: a string stripped of double quotes contains none. -/
theorem removeQuotes_no_quote (s : String) :
    ∀ c ∈ (removeQuotes s).data, c ≠ '\x22' := by
  intro c hc
  simp only [removeQuotes, List.mem_filter, decide_eq_true_eq] at hc
  exact hc.2

/-- Claim C10: Models::to_string never yields a double-quote character;
each named variant yields exactly its serde rename string, and Custom s
yields s with every double quote removed. -/
theorem c10_models_to_string (m : Models) :
    (∀ c ∈ (m.to_string).data, c ≠ '\x22')
    ∧ (∀ s, m = Models.Custom s → m.to_string = removeQuotes s)
    ∧ ((∀ s, m ≠ Models.Custom s) → m.to_string = m.serde_rename) := by
  refine ⟨?_, ?_, ?_⟩
  · cases m <;> exact removeQuotes_no_quote _
  · rintro s rfl
    rfl
  · intro h
    cases m <;> first | rfl | exact absurd rfl (h _)

/-- Witness for C10 at two concrete models. -/
theorem c10_models_to_string_witness :
    Models.Gemini2Flash.to_string = "gemini-2.0-flash"
    ∧ (Models.Custom "a\x22b").to_string = removeQuotes "a\x22b" := by
  refine ⟨?_, ?_⟩
  · exact (c10_models_to_string Models.Gemini2Flash).2.2 (fun s => by simp)
  · exact (c10_models_to_string (Models.Custom "a\x22b")).2.1 _ rfl

/-- Claim C4: Context::build copies the conversation turns unchanged,
passes through safety settings, generation config and system instruction
when the Settings provide them, and otherwise installs the built-in
defaults: the four harm categories at BlockNone and a generation config
with max_output_tokens 8192 and temperature 1. -/
theorem c4_context_build_request (ctx : Context) (settings : Settings) :
    (ctx.build settings).contents = ctx.contents
    ∧ (∀ ss, settings.safety_settings = some ss →
        (ctx.build settings).safety_settings = some ss)
    ∧ (settings.safety_settings = none →
        (ctx.build settings).safety_settings = some
          [ { category := HarmCategory.HarmCategoryHateSpeech
              threshold := HarmBlockThreshold.BlockNone }
          , { category := HarmCategory.HarmCategorySexuallyExplicit
              threshold := HarmBlockThreshold.BlockNone }
          , { category := HarmCategory.HarmCategoryDangerousContent
              threshold := HarmBlockThreshold.BlockNone }
          , { category := HarmCategory.HarmCategoryHarassment
              threshold := HarmBlockThreshold.BlockNone } ])
    ∧ (∀ gc, settings.generation_config = some gc →
        (ctx.build settings).generation_config = some gc)
    ∧ (settings.generation_config = none →
        (ctx.build settings).generation_config = some
          { stop_sequences := none, response_mime_type := none
            max_output_tokens := some 8192, temperature := some 1
            top_p := none, top_k := none })
    ∧ (∀ ins, settings.system_instruction = some ins →
        (ctx.build settings).system_instruction = some
          { parts := [{ data := PartData.text ins }] })
    ∧ (settings.system_instruction = none →
        (ctx.build settings).system_instruction = none) := by
  refine ⟨rfl, ?_, ?_, ?_, ?_, ?_, ?_⟩ <;>
    · intros
      simp [Context.build, GenerateContentRequest.new, *]

/-- Witness for C4: the defaults at empty settings, and pass-through of a
provided system instruction. -/
theorem c4_context_build_request_witness :
    (Context.new.build
        { safety_settings := none, generation_config := none
          system_instruction := none }).generation_config = some
      { stop_sequences := none, response_mime_type := none
        max_output_tokens := some 8192, temperature := some 1
        top_p := none, top_k := none }
    ∧ (Context.new.build
        { safety_settings := none, generation_config := none
          system_instruction := some "be brief" }).system_instruction = some
      { parts := [{ data := PartData.text "be brief" }] } := by
  refine ⟨?_, ?_⟩
  · exact (c4_context_build_request Context.new _).2.2.2.2.1 rfl
  · exact (c4_context_build_request Context.new _).2.2.2.2.2.1 "be brief" rfl

/-- Counterexample to claim C2: Context::clear removes existing turns, so
not every Context operation extends the list or leaves it unchanged. -/
theorem c2_clear_not_append_only :
    ¬ ∃ extension,
        (ContextOp.apply ContextOp.clear
            { contents := [{ parts := [{ data := PartData.text "hello" }]
                             role := some Role.User }] }).contents
          = [{ parts := [{ data := PartData.text "hello" }]
               role := some Role.User }] ++ extension := by
  rintro ⟨extension, h⟩
  simp [ContextOp.apply, Context.clear] at h

/-- Claim C2 as amended: every Context operation other than clear and
get_contents_mut appends exactly one Content entry at the end of the
history and leaves the existing turns unchanged; clear empties the list and
get_contents_mut exposes it for arbitrary mutation. -/
theorem c2_push_ops_append_only (op : ContextOp) (ctx : Context) :
    ((op ≠ ContextOp.clear ∧ ∀ f, op ≠ ContextOp.get_contents_mut f) →
      ∃ c, (op.apply ctx).contents = ctx.contents ++ [c])
    ∧ (ContextOp.apply ContextOp.clear ctx).contents = [] := by
  constructor
  · rintro ⟨h1, h2⟩
    cases op with
    | clear => exact absurd rfl h1
    | get_contents_mut f => exact absurd rfl (h2 f)
    | push_message role content => exact ⟨_, rfl⟩
    | push_file role fd => exact ⟨_, rfl⟩
    | push_blob role b => exact ⟨_, rfl⟩
    | push_message_with_file role content fd => exact ⟨_, rfl⟩
    | push_message_with_blob role content b => exact ⟨_, rfl⟩
  · rfl

/-- Witness for C2's amended theorem: push_message on the empty context
appends one turn. -/
theorem c2_push_ops_append_only_witness :
    ∃ c, (ContextOp.apply (ContextOp.push_message (some Role.User) "hi")
        Context.new).contents = Context.new.contents ++ [c] :=
  (c2_push_ops_append_only (ContextOp.push_message (some Role.User) "hi")
      Context.new).1 ⟨by simp, fun f => by simp⟩

/-- Claim C7: Client::send_context_stream yields a stream exactly when the
HTTP status is OK; a connection failure maps to ConnectionError and a
non-OK status maps to a StreamError whose message interpolates the response
body and the status code. -/
theorem c7_send_context_stream (o : StreamHttpOutcome) :
    ((∃ s, Client.send_context_stream o = Except.ok s) ↔
      ∃ st body, o = StreamHttpOutcome.resp st body ∧ st.code = 200)
    ∧ (∀ e, o = StreamHttpOutcome.connFailure e →
        Client.send_context_stream o
          = Except.error (GemError.ConnectionError e))
    ∧ (∀ st body, o = StreamHttpOutcome.resp st body → st.code ≠ 200 →
        Client.send_context_stream o
          = Except.error (GemError.StreamError
              ("Response error: " ++ body ++ " (status code: " ++
                st.display ++ ")"))) := by
  refine ⟨⟨?_, ?_⟩, ?_, ?_⟩
  · rintro ⟨s, hs⟩
    cases o with
    | connFailure e => simp [Client.send_context_stream] at hs
    | resp st body =>
        refine ⟨st, body, rfl, ?_⟩
        by_contra h
        simp [Client.send_context_stream, h] at hs
  · rintro ⟨st, body, rfl, h⟩
    exact ⟨{ source_body := body }, by simp [Client.send_context_stream, h]⟩
  · rintro e rfl
    rfl
  · rintro st body rfl h
    simp [Client.send_context_stream, h]

/-- Witness for C7: a 200 response yields a stream, a 400 response yields
the formatted StreamError. -/
theorem c7_send_context_stream_witness :
    (∃ s, Client.send_context_stream
        (StreamHttpOutcome.resp okStatus "[]") = Except.ok s)
    ∧ Client.send_context_stream (StreamHttpOutcome.resp badStatus "nope")
        = Except.error (GemError.StreamError
            ("Response error: " ++ "nope" ++ " (status code: " ++
              badStatus.display ++ ")")) := by
  refine ⟨?_, ?_⟩
  · exact (c7_send_context_stream
        (StreamHttpOutcome.resp okStatus "[]")).1.2 ⟨okStatus, "[]", rfl, rfl⟩
  · exact (c7_send_context_stream
        (StreamHttpOutcome.resp badStatus "nope")).2.2 badStatus "nope" rfl
        (by decide)

/-- Helper: reduction of Client.send_context on a connection failure. -/
theorem send_context_connFailure
    (pr : String → Except String GenerateContentResponse)
    (pe : String → Except String Error) (e : String) :
    Client.send_context pr pe (HttpSendOutcome.connFailure e)
      = Except.error (GemError.ConnectionError e) := rfl

/-- Helper: reduction of Client.send_context on a body-read failure. -/
theorem send_context_textFailure
    (pr : String → Except String GenerateContentResponse)
    (pe : String → Except String Error) (st : StatusCode) (e : String) :
    Client.send_context pr pe (HttpSendOutcome.textFailure st e)
      = Except.error (GemError.ResponseError e st) := rfl

/-- Helper: reduction of Client.send_context on a received body. -/
theorem send_context_body
    (pr : String → Except String GenerateContentResponse)
    (pe : String → Except String Error) (st : StatusCode) (text : String) :
    Client.send_context pr pe (HttpSendOutcome.body st text)
      = if st.code = 200 then
          match pr text with
          | Except.ok response => candidate_gate response
          | Except.error e => Except.error (GemError.ParsingError e)
        else
          match pe text with
          | Except.ok err => Except.error (GemError.GeminiAPIError err)
          | Except.error e => Except.error (GemError.ParsingError e) := rfl

/-- Helper: inverting a successful candidate check.  The check only lets a
response through unchanged, and only when it has a candidate and some
candidate has content. -/
theorem candidate_gate_ok_inv (r r' : GenerateContentResponse)
    (h : candidate_gate r' = Except.ok r) :
    r = r' ∧ r.get_candidates ≠ []
      ∧ ∃ c ∈ r.get_candidates, c.get_content.isSome = true := by
  unfold candidate_gate at h
  by_cases h0 : r'.get_candidates.length = 0
  · simp [h0] at h
  · rw [if_neg h0] at h
    by_cases hb : (r'.get_candidates.all fun c => c.get_content.isNone) = true
    · rw [if_pos hb] at h
      rcases hfb : r'.feedback with _ | br <;> rw [hfb] at h <;> simp at h
    · rw [if_neg hb] at h
      have hr : r = r' := by
        cases h
        rfl
      subst hr
      refine ⟨rfl, ?_, ?_⟩
      · intro hnil
        exact h0 (by simp [hnil])
      · simp only [List.all_eq_true, not_forall] at hb
        obtain ⟨c, hc, hne⟩ := hb
        rcases hcc : c.get_content with _ | v
        · exact absurd (by simp [hcc]) hne
        · exact ⟨c, hc, by simp [hcc]⟩

/-- Helper: a response returned Ok by Client.send_context passed the
candidate checks. -/
theorem send_context_ok_inv
    (pr : String → Except String GenerateContentResponse)
    (pe : String → Except String Error) (o : HttpSendOutcome)
    (r : GenerateContentResponse)
    (h : Client.send_context pr pe o = Except.ok r) :
    r.get_candidates ≠ []
      ∧ ∃ c ∈ r.get_candidates, c.get_content.isSome = true := by
  cases o with
  | connFailure e =>
      rw [send_context_connFailure] at h
      simp at h
  | textFailure st e =>
      rw [send_context_textFailure] at h
      simp at h
  | body st text =>
      rw [send_context_body] at h
      by_cases h200 : st.code = 200
      · rw [if_pos h200] at h
        rcases hp : pr text with e | r' <;> rw [hp] at h
        · simp at h
        · exact (candidate_gate_ok_inv r r' h).2
      · rw [if_neg h200] at h
        rcases hp : pe text with e | err <;> rw [hp] at h <;> simp at h

/-- Claim C3: Client::send_context classifies an HTTP exchange into the
typed result or a typed error: on status OK it returns the deserialized
response (passed through the candidate checks, whose outcome is either the
response itself or one of the three candidate errors), on OK with an
undeserializable body a ParsingError, on non-OK with a body deserializing
as the typed Error a GeminiAPIError, and on non-OK otherwise a
ParsingError. -/
theorem c3_send_context_branches
    (pr : String → Except String GenerateContentResponse)
    (pe : String → Except String Error) (st : StatusCode) (text : String) :
    (st.code = 200 → ∀ r, pr text = Except.ok r →
        Client.send_context pr pe (HttpSendOutcome.body st text)
          = candidate_gate r)
    ∧ (st.code = 200 → ∀ e, pr text = Except.error e →
        Client.send_context pr pe (HttpSendOutcome.body st text)
          = Except.error (GemError.ParsingError e))
    ∧ (st.code ≠ 200 → ∀ err, pe text = Except.ok err →
        Client.send_context pr pe (HttpSendOutcome.body st text)
          = Except.error (GemError.GeminiAPIError err))
    ∧ (st.code ≠ 200 → ∀ e, pe text = Except.error e →
        Client.send_context pr pe (HttpSendOutcome.body st text)
          = Except.error (GemError.ParsingError e))
    ∧ (∀ r, candidate_gate r = Except.ok r
        ∨ candidate_gate r = Except.error GemError.EmptyApiResponse
        ∨ (∃ s, candidate_gate r = Except.error (GemError.FeedbackError s))
        ∨ candidate_gate r = Except.error GemError.AllCandidatesBlocked) := by
  refine ⟨?_, ?_, ?_, ?_, ?_⟩
  · intro h200 r hpr
    rw [send_context_body, if_pos h200, hpr]
  · intro h200 e hpr
    rw [send_context_body, if_pos h200, hpr]
  · intro h200 err hpe
    rw [send_context_body, if_neg h200, hpe]
  · intro h200 e hpe
    rw [send_context_body, if_neg h200, hpe]
  · intro r
    unfold candidate_gate
    by_cases h0 : r.get_candidates.length = 0
    · rw [if_pos h0]
      exact Or.inr (Or.inl rfl)
    · rw [if_neg h0]
      by_cases hb : (r.get_candidates.all fun c => c.get_content.isNone) = true
      · rw [if_pos hb]
        rcases hfb : r.feedback with _ | br
        · exact Or.inr (Or.inr (Or.inr rfl))
        · exact Or.inr (Or.inr (Or.inl ⟨br.display, rfl⟩))
      · rw [if_neg hb]
        exact Or.inl rfl

/-- Witness for C3: an OK status with an unparsable body gives a
ParsingError, a 400 status with a parsable error body gives a
GeminiAPIError. -/
theorem c3_send_context_branches_witness :
    Client.send_context (fun _ => Except.error "bad json")
        (fun _ => Except.ok { code := 400, message := "oops"
                              status := "INVALID_ARGUMENT" })
        (HttpSendOutcome.body okStatus "x")
      = Except.error (GemError.ParsingError "bad json")
    ∧ Client.send_context (fun _ => Except.error "bad json")
        (fun _ => Except.ok { code := 400, message := "oops"
                              status := "INVALID_ARGUMENT" })
        (HttpSendOutcome.body badStatus "x")
      = Except.error (GemError.GeminiAPIError
          { code := 400, message := "oops", status := "INVALID_ARGUMENT" }) := by
  refine ⟨?_, ?_⟩
  · exact (c3_send_context_branches _ _ okStatus "x").2.1 rfl "bad json" rfl
  · exact (c3_send_context_branches _ _ badStatus "x").2.2.1 (by decide) _ rfl

/-- Claim C8: a response returned Ok by Client::send_context has a
non-empty candidate list with at least one candidate carrying content; an
empty list is turned into EmptyApiResponse, and a contentless list into
FeedbackError with the prompt-feedback block reason when one is present,
else AllCandidatesBlocked. -/
theorem c8_send_context_candidates
    (pr : String → Except String GenerateContentResponse)
    (pe : String → Except String Error) (o : HttpSendOutcome) :
    (∀ r, Client.send_context pr pe o = Except.ok r →
        r.get_candidates ≠ []
          ∧ ∃ c ∈ r.get_candidates, c.get_content.isSome = true)
    ∧ (∀ st text r, o = HttpSendOutcome.body st text → st.code = 200 →
        pr text = Except.ok r →
        ((r.get_candidates = [] →
            Client.send_context pr pe o
              = Except.error GemError.EmptyApiResponse)
         ∧ ((∀ c ∈ r.get_candidates, c.get_content = none) →
             r.get_candidates ≠ [] →
             ((∃ br, r.feedback = some br ∧
                 Client.send_context pr pe o
                   = Except.error (GemError.FeedbackError br.display))
              ∨ (r.feedback = none ∧
                 Client.send_context pr pe o
                   = Except.error GemError.AllCandidatesBlocked))))) := by
  constructor
  · exact fun r h => send_context_ok_inv pr pe o r h
  · rintro st text r rfl h200 hpr
    have hsend : Client.send_context pr pe (HttpSendOutcome.body st text)
        = candidate_gate r := by
      rw [send_context_body, if_pos h200, hpr]
    constructor
    · intro hnil
      rw [hsend]
      simp [candidate_gate, hnil]
    · intro hall hne
      have hlen : ¬ r.get_candidates.length = 0 := by
        simpa [List.length_eq_zero] using hne
      have hb : (r.get_candidates.all fun c => c.get_content.isNone) = true := by
        rw [List.all_eq_true]
        intro c hc
        simp [hall c hc]
      rcases hfb : r.feedback with _ | br
      · refine Or.inr ⟨rfl, ?_⟩
        rw [hsend]
        unfold candidate_gate
        rw [if_neg hlen, if_pos hb, hfb]
      · refine Or.inl ⟨br, rfl, ?_⟩
        rw [hsend]
        unfold candidate_gate
        rw [if_neg hlen, if_pos hb, hfb]

/-- Witness for C8: a response with one contentful candidate is passed
through, and a parsed response with no candidates at all maps to
EmptyApiResponse. -/
theorem c8_send_context_candidates_witness :
    (respGood.get_candidates ≠ []
      ∧ ∃ c ∈ respGood.get_candidates, c.get_content.isSome = true)
    ∧ Client.send_context
        (fun _ => Except.ok { candidates := [], prompt_feedback := none
                              usage_metadata := none })
        (fun _ => Except.error "unused")
        (HttpSendOutcome.body okStatus "x")
      = Except.error GemError.EmptyApiResponse := by
  refine ⟨?_, ?_⟩
  · exact (c8_send_context_candidates (fun _ => Except.ok respGood)
        (fun _ => Except.error "unused")
        (HttpSendOutcome.body okStatus "x")).1 respGood rfl
  · exact ((c8_send_context_candidates
        (fun _ => Except.ok { candidates := [], prompt_feedback := none
                              usage_metadata := none })
        (fun _ => Except.error "unused")
        (HttpSendOutcome.body okStatus "x")).2 okStatus "x" _ rfl rfl rfl).1 rfl

/-- Helper: reduction of GemSession.send_message when the request fails. -/
theorem send_message_error
    (pr : String → Except String GenerateContentResponse)
    (pe : String → Except String Error) (o : HttpSendOutcome)
    (ctx : Context) (msg : String) (role : Role) (e : GemError)
    (hsc : Client.send_context pr pe o = Except.error e) :
    GemSession.send_message pr pe o ctx msg role
      = (ctx.push_message (some role) msg, Except.error e) := by
  unfold GemSession.send_message
  rw [hsc]

/-- Helper: reduction of GemSession.send_message when the request
succeeds, leaving the dispatch on the first candidate. -/
theorem send_message_ok
    (pr : String → Except String GenerateContentResponse)
    (pe : String → Except String Error) (o : HttpSendOutcome)
    (ctx : Context) (msg : String) (role : Role)
    (resp : GenerateContentResponse)
    (hsc : Client.send_context pr pe o = Except.ok resp) :
    GemSession.send_message pr pe o ctx msg role
      = GemSession.handle_candidate (ctx.push_message (some role) msg) resp
          resp.get_candidates.head? := by
  unfold GemSession.send_message
  rw [hsc]

/-- Claim C9: GemSession::send_message pushes the caller's message before
the request, and on every error outcome the session context still ends
with exactly that user turn appended. -/
theorem c9_send_message_error_keeps_user_turn
    (pr : String → Except String GenerateContentResponse)
    (pe : String → Except String Error) (o : HttpSendOutcome)
    (ctx : Context) (msg : String) (role : Role) :
    ∀ e, (GemSession.send_message pr pe o ctx msg role).2 = Except.error e →
      (GemSession.send_message pr pe o ctx msg role).1
        = ctx.push_message (some role) msg := by
  intro e he
  rcases hsc : Client.send_context pr pe o with e' | resp
  · rw [send_message_error pr pe o ctx msg role e' hsc]
  · rw [send_message_ok pr pe o ctx msg role resp hsc] at he ⊢
    rcases hh : resp.get_candidates.head? with _ | cand <;> rw [hh] at he
    · simp [GemSession.handle_candidate] at he
    · simp only [GemSession.handle_candidate] at he ⊢
      rcases hc : cand.get_content with _ | content <;> rw [hc] at he
      · simp [GemSession.handle_content] at he
      · simp only [GemSession.handle_content] at he ⊢
        rcases ht : content.get_text with _ | t <;> rw [ht] at he
        · rfl
        · simp [GemSession.append_model_text] at he

/-- Witness for C9: a connection failure leaves exactly the user's turn in
the context. -/
theorem c9_send_message_error_keeps_user_turn_witness :
    (GemSession.send_message (fun _ => Except.error "unused")
        (fun _ => Except.error "unused")
        (HttpSendOutcome.connFailure "connection refused")
        Context.new "hello" Role.User).1
      = Context.new.push_message (some Role.User) "hello" :=
  c9_send_message_error_keeps_user_turn (fun _ => Except.error "unused")
    (fun _ => Except.error "unused")
    (HttpSendOutcome.connFailure "connection refused")
    Context.new "hello" Role.User
    (GemError.ConnectionError "connection refused") rfl

/-- Counterexample to claim C1: a successful send_message need not extend
the context by two turns.  With a response whose first candidate has no
content while its second one does, the candidate checks pass, send_message
returns Ok, and only the single user turn has been appended. -/
theorem c1_first_candidate_without_content_counterexample :
    (GemSession.send_message (fun _ => Except.ok respFirstNoContent)
        (fun _ => Except.error "unused")
        (HttpSendOutcome.body okStatus "") Context.new "question"
        Role.User).2
      = Except.ok respFirstNoContent
    ∧ (GemSession.send_message (fun _ => Except.ok respFirstNoContent)
        (fun _ => Except.error "unused")
        (HttpSendOutcome.body okStatus "") Context.new "question"
        Role.User).1.contents.length = 1 := by
  exact ⟨rfl, rfl⟩

/-- Claim C1 as amended: when send_message returns Ok, the context has been
extended first by a turn with the caller's role containing the message
text, and additionally by a Model turn whose single text part is the first
text part of the first candidate's content exactly when that first
candidate has content (its text then necessarily exists); when the first
candidate has no content, only the user turn is appended. -/
theorem c1_send_message_ok_extension
    (pr : String → Except String GenerateContentResponse)
    (pe : String → Except String Error) (o : HttpSendOutcome)
    (ctx : Context) (msg : String) (role : Role) :
    ∀ resp, (GemSession.send_message pr pe o ctx msg role).2
        = Except.ok resp →
      resp.get_candidates.head?.isSome = true
      ∧ ∀ cand, resp.get_candidates.head? = some cand →
          ((cand.get_content = none →
             (GemSession.send_message pr pe o ctx msg role).1
               = ctx.push_message (some role) msg)
           ∧ ∀ content, cand.get_content = some content →
               content.get_text ≠ none
               ∧ ∀ text, content.get_text = some text →
                   (GemSession.send_message pr pe o ctx msg role).1
                     = (ctx.push_message (some role) msg).push_message
                         (some Role.Model) text) := by
  intro resp he
  rcases hsc : Client.send_context pr pe o with e' | resp0
  · rw [send_message_error pr pe o ctx msg role e' hsc] at he
    simp at he
  · rw [send_message_ok pr pe o ctx msg role resp0 hsc] at he ⊢
    rcases hh : resp0.get_candidates.head? with _ | cand <;> rw [hh] at he
    · simp [GemSession.handle_candidate] at he
      subst he
      obtain ⟨hne, -⟩ := send_context_ok_inv pr pe o _ hsc
      exact absurd (List.head?_eq_none_iff.mp hh) hne
    · simp only [GemSession.handle_candidate] at he ⊢
      rcases hc : cand.get_content with _ | content <;> rw [hc] at he
      · simp [GemSession.handle_content] at he
        subst he
        refine ⟨by rw [hh] ; rfl, ?_⟩
        intro cand' hcand'
        rw [hh] at hcand'
        injection hcand' with hcc
        subst hcc
        refine ⟨fun _ => rfl, ?_⟩
        intro content hcontent
        rw [hc] at hcontent
        exact Option.noConfusion hcontent
      · simp only [GemSession.handle_content] at he ⊢
        rcases ht : content.get_text with _ | t <;> rw [ht] at he
        · simp [GemSession.append_model_text] at he
        · simp [GemSession.append_model_text] at he
          subst he
          refine ⟨by rw [hh] ; rfl, ?_⟩
          intro cand' hcand'
          rw [hh] at hcand'
          injection hcand' with hcc
          subst hcc
          constructor
          · intro hnone
            rw [hc] at hnone
            exact Option.noConfusion hnone
          · intro content' hcontent'
            rw [hc] at hcontent'
            injection hcontent' with hcc'
            subst hcc'
            refine ⟨by rw [ht] ; simp, ?_⟩
            intro text htext
            rw [ht] at htext
            injection htext with htt
            subst htt
            rfl

/-- Witness for C1's amended theorem: with a single text candidate the
context ends with the user turn followed by the Model turn carrying the
candidate's text. -/
theorem c1_send_message_ok_extension_witness :
    (GemSession.send_message (fun _ => Except.ok respGood)
        (fun _ => Except.error "unused")
        (HttpSendOutcome.body okStatus "") Context.new "q" Role.User).1
      = (Context.new.push_message (some Role.User) "q").push_message
          (some Role.Model) "hello" := by
  have h := c1_send_message_ok_extension (fun _ => Except.ok respGood)
    (fun _ => Except.error "unused") (HttpSendOutcome.body okStatus "")
    Context.new "q" Role.User respGood rfl
  exact ((h.2 (textCandidate "hello") rfl).2 (modelTextContent "hello")
      rfl).2 "hello" rfl

/-- Helper: the poll loop stops with a FileError when the GET fails. -/
theorem poll_loop_exit_conn (p : Nat → PollResult) (i t : Nat) (e : String)
    (hp : p i = PollResult.connErr e) :
    File.poll_loop p i t = Except.error (GemError.FileError e) := by
  conv_lhs => rw [File.poll_loop]
  rw [hp]

/-- Helper: the poll loop stops with a FileError when reading the GET body
fails. -/
theorem poll_loop_exit_text (p : Nat → PollResult) (i t : Nat) (e : String)
    (hp : p i = PollResult.textErr e) :
    File.poll_loop p i t = Except.error (GemError.FileError e) := by
  conv_lhs => rw [File.poll_loop]
  rw [hp]

/-- Helper: the poll loop stops when the GET body fails to parse. -/
theorem poll_loop_exit_parse (p : Nat → PollResult) (i t : Nat)
    (hp : p i = PollResult.parseErr) :
    File.poll_loop p i t
      = Except.error (GemError.FileError "File data not found") := by
  conv_lhs => rw [File.poll_loop]
  rw [hp]

/-- Helper: the poll loop breaks with Ok on an ACTIVE state. -/
theorem poll_loop_exit_active (p : Nat → PollResult) (i t : Nat) (f : File)
    (hp : p i = PollResult.state f) (hs : f.state = "ACTIVE") :
    File.poll_loop p i t = Except.ok () := by
  conv_lhs => rw [File.poll_loop]
  rw [hp]
  simp [hs]

/-- Helper: the poll loop fails with the server's message on FAILED. -/
theorem poll_loop_exit_failed (p : Nat → PollResult) (i t : Nat) (f : File)
    (hp : p i = PollResult.state f) (hs : f.state = "FAILED") :
    File.poll_loop p i t = Except.error (GemError.FileError
      ((f.error.getD
          { code := 0, message := "File processing failed" }).message)) := by
  conv_lhs => rw [File.poll_loop]
  rw [hp]
  simp [hs]

/-- Helper: the poll loop fails on a state that is neither ACTIVE, FAILED
nor PROCESSING. -/
theorem poll_loop_exit_unknown (p : Nat → PollResult) (i t : Nat) (f : File)
    (hp : p i = PollResult.state f) (h1 : f.state ≠ "ACTIVE")
    (h2 : f.state ≠ "FAILED") (h3 : f.state ≠ "PROCESSING") :
    File.poll_loop p i t
      = Except.error (GemError.FileError "File processing unknown state") := by
  conv_lhs => rw [File.poll_loop]
  rw [hp]
  simp [h1, h2, h3]

/-- Helper: the poll loop gives up once the retry counter has reached 3
while the file is still processing. -/
theorem poll_loop_exit_timeout (p : Nat → PollResult) (i t : Nat) (f : File)
    (hp : p i = PollResult.state f) (hs : f.state = "PROCESSING")
    (ht : 3 ≤ t) :
    File.poll_loop p i t
      = Except.error (GemError.FileError "File processing timeout") := by
  conv_lhs => rw [File.poll_loop]
  rw [hp]
  simp [hs, ht]

/-- Helper: a PROCESSING state below the retry bound advances the loop by
one iteration. -/
theorem poll_loop_processing_step (p : Nat → PollResult) (i t : Nat)
    (f : File) (hp : p i = PollResult.state f)
    (hs : f.state = "PROCESSING") (ht : t < 3) :
    File.poll_loop p i t = File.poll_loop p (i + 1) (t + 1) := by
  conv_lhs => rw [File.poll_loop]
  rw [hp]
  simp [hs, Nat.not_le.mpr ht]

/-- Helper: one congruence step.  Below the retry bound the loop's value
at step i depends only on the i-th poll and the rest of the run. -/
theorem poll_loop_congr_step (p q : Nat → PollResult) (i t : Nat)
    (ht : t < 3) (hpq : p i = q i)
    (hrec : File.poll_loop p (i + 1) (t + 1)
      = File.poll_loop q (i + 1) (t + 1)) :
    File.poll_loop p i t = File.poll_loop q i t := by
  rcases hq : q i with e | e | _ | f
  · rw [poll_loop_exit_conn p i t e (hpq.trans hq),
      poll_loop_exit_conn q i t e hq]
  · rw [poll_loop_exit_text p i t e (hpq.trans hq),
      poll_loop_exit_text q i t e hq]
  · rw [poll_loop_exit_parse p i t (hpq.trans hq),
      poll_loop_exit_parse q i t hq]
  · by_cases hA : f.state = "ACTIVE"
    · rw [poll_loop_exit_active p i t f (hpq.trans hq) hA,
        poll_loop_exit_active q i t f hq hA]
    · by_cases hF : f.state = "FAILED"
      · rw [poll_loop_exit_failed p i t f (hpq.trans hq) hF,
          poll_loop_exit_failed q i t f hq hF]
      · by_cases hP : f.state = "PROCESSING"
        · rw [poll_loop_processing_step p i t f (hpq.trans hq) hP ht,
            poll_loop_processing_step q i t f hq hP ht]
          exact hrec
        · rw [poll_loop_exit_unknown p i t f (hpq.trans hq) hA hF hP,
            poll_loop_exit_unknown q i t f hq hA hF hP]

/-- Helper: at the retry bound the loop's value depends only on the
current poll. -/
theorem poll_loop_congr_last (p q : Nat → PollResult) (i t : Nat)
    (ht : 3 ≤ t) (hpq : p i = q i) :
    File.poll_loop p i t = File.poll_loop q i t := by
  rcases hq : q i with e | e | _ | f
  · rw [poll_loop_exit_conn p i t e (hpq.trans hq),
      poll_loop_exit_conn q i t e hq]
  · rw [poll_loop_exit_text p i t e (hpq.trans hq),
      poll_loop_exit_text q i t e hq]
  · rw [poll_loop_exit_parse p i t (hpq.trans hq),
      poll_loop_exit_parse q i t hq]
  · by_cases hA : f.state = "ACTIVE"
    · rw [poll_loop_exit_active p i t f (hpq.trans hq) hA,
        poll_loop_exit_active q i t f hq hA]
    · by_cases hF : f.state = "FAILED"
      · rw [poll_loop_exit_failed p i t f (hpq.trans hq) hF,
          poll_loop_exit_failed q i t f hq hF]
      · by_cases hP : f.state = "PROCESSING"
        · rw [poll_loop_exit_timeout p i t f (hpq.trans hq) hP ht,
            poll_loop_exit_timeout q i t f hq hP ht]
        · rw [poll_loop_exit_unknown p i t f (hpq.trans hq) hA hF hP,
            poll_loop_exit_unknown q i t f hq hA hF hP]

/-- Claim C6: the state-polling loop of File::upload is bounded and total:
its value from a fresh start is determined by the first 4 polls, it exits
Ok on ACTIVE, with the server's message (or the built-in default) on
FAILED, with a fixed message on an unrecognized state, with a timeout
error once the retry counter has reached 3, and a run that only ever sees
PROCESSING ends in the timeout error after the 4 polls. -/
theorem c6_upload_poll_loop :
    (∀ p q : Nat → PollResult, (∀ j, j < 4 → p j = q j) →
        File.poll_loop p 0 0 = File.poll_loop q 0 0)
    ∧ (∀ (p : Nat → PollResult) (f : File) (i t : Nat),
        p i = PollResult.state f → f.state = "ACTIVE" →
        File.poll_loop p i t = Except.ok ())
    ∧ (∀ (p : Nat → PollResult) (f : File) (i t : Nat),
        p i = PollResult.state f → f.state = "FAILED" →
        File.poll_loop p i t = Except.error (GemError.FileError
          ((f.error.getD
              { code := 0, message := "File processing failed" }).message)))
    ∧ (∀ (p : Nat → PollResult) (f : File) (i t : Nat),
        p i = PollResult.state f → f.state ≠ "ACTIVE" →
        f.state ≠ "FAILED" → f.state ≠ "PROCESSING" →
        File.poll_loop p i t
          = Except.error (GemError.FileError "File processing unknown state"))
    ∧ (∀ (p : Nat → PollResult) (f : File) (i t : Nat),
        p i = PollResult.state f → f.state = "PROCESSING" → 3 ≤ t →
        File.poll_loop p i t
          = Except.error (GemError.FileError "File processing timeout"))
    ∧ (∀ p : Nat → PollResult,
        (∀ j, j < 4 → ∃ f, p j = PollResult.state f
          ∧ f.state = "PROCESSING") →
        File.poll_loop p 0 0
          = Except.error (GemError.FileError "File processing timeout")) := by
  refine ⟨?_, ?_, ?_, ?_, ?_, ?_⟩
  · intro p q h
    exact poll_loop_congr_step p q 0 0 (by omega) (h 0 (by omega))
      (poll_loop_congr_step p q 1 1 (by omega) (h 1 (by omega))
        (poll_loop_congr_step p q 2 2 (by omega) (h 2 (by omega))
          (poll_loop_congr_last p q 3 3 (by omega) (h 3 (by omega)))))
  · exact fun p f i t hp hs => poll_loop_exit_active p i t f hp hs
  · exact fun p f i t hp hs => poll_loop_exit_failed p i t f hp hs
  · exact fun p f i t hp h1 h2 h3 =>
      poll_loop_exit_unknown p i t f hp h1 h2 h3
  · exact fun p f i t hp hs ht => poll_loop_exit_timeout p i t f hp hs ht
  · intro p hp
    obtain ⟨f0, hp0, hs0⟩ := hp 0 (by omega)
    obtain ⟨f1, hp1, hs1⟩ := hp 1 (by omega)
    obtain ⟨f2, hp2, hs2⟩ := hp 2 (by omega)
    obtain ⟨f3, hp3, hs3⟩ := hp 3 (by omega)
    calc File.poll_loop p 0 0
        = File.poll_loop p 1 1 :=
          poll_loop_processing_step p 0 0 f0 hp0 hs0 (by omega)
      _ = File.poll_loop p 2 2 :=
          poll_loop_processing_step p 1 1 f1 hp1 hs1 (by omega)
      _ = File.poll_loop p 3 3 :=
          poll_loop_processing_step p 2 2 f2 hp2 hs2 (by omega)
      _ = Except.error (GemError.FileError "File processing timeout") :=
          poll_loop_exit_timeout p 3 3 f3 hp3 hs3 (by omega)

/-- Witness for C6: a run that always reports PROCESSING ends in the
timeout error, and a first poll reporting ACTIVE ends in Ok. -/
theorem c6_upload_poll_loop_witness :
    File.poll_loop
        (fun _ => PollResult.state
          (sampleFile "PROCESSING" "2999-01-01T00:00:00Z")) 0 0
      = Except.error (GemError.FileError "File processing timeout")
    ∧ File.poll_loop
        (fun _ => PollResult.state
          (sampleFile "ACTIVE" "2999-01-01T00:00:00Z")) 0 0
      = Except.ok () := by
  refine ⟨?_, ?_⟩
  · exact c6_upload_poll_loop.2.2.2.2.2
      (fun _ => PollResult.state
        (sampleFile "PROCESSING" "2999-01-01T00:00:00Z"))
      (fun j _ => ⟨sampleFile "PROCESSING" "2999-01-01T00:00:00Z", rfl, rfl⟩)
  · exact c6_upload_poll_loop.2.1
      (fun _ => PollResult.state
        (sampleFile "ACTIVE" "2999-01-01T00:00:00Z"))
      (sampleFile "ACTIVE" "2999-01-01T00:00:00Z") 0 0 rfl rfl

/-- Helper: under unique keys, the cache scan finds a fresh entry stored
under the looked-up hash and returns its FileData at once. -/
theorem get_file_scan_found (hash threshold : String) (f : File) :
    ∀ (files : List (String × File)) (acc : List String),
      (List.map Prod.fst files).Nodup → (hash, f) ∈ files →
      threshold < f.expiration_time →
      ∃ acc', FileManager.get_file_scan hash threshold files acc
        = (some { mime_type := f.mime_type, file_uri := f.uri }, acc') := by
  intro files
  induction files with
  | nil =>
      intro acc _ hm _
      simp at hm
  | cons e rest ih =>
      intro acc hnd hm hf
      rw [List.map_cons, List.nodup_cons] at hnd
      obtain ⟨hnotin, hndrest⟩ := hnd
      rcases List.mem_cons.mp hm with hme | hmr
      · refine ⟨acc, ?_⟩
        rw [← hme]
        simp [FileManager.get_file_scan, hf]
      · by_cases he : e.1 = hash
        · exact absurd (List.mem_map.mpr ⟨(hash, f), hmr, he.symm⟩) hnotin
        · obtain ⟨acc', hacc⟩ := ih acc hndrest hmr hf
          refine ⟨acc', ?_⟩
          rw [FileManager.get_file_scan, if_neg he]
          exact hacc

/-- Helper: when every entry under the hash is expired, the scan reports a
miss. -/
theorem get_file_scan_none (hash threshold : String) :
    ∀ (files : List (String × File)) (acc : List String),
      (∀ f, (hash, f) ∈ files → ¬ threshold < f.expiration_time) →
      (FileManager.get_file_scan hash threshold files acc).1 = none := by
  intro files
  induction files with
  | nil =>
      intro acc _
      rfl
  | cons e rest ih =>
      intro acc hexp
      by_cases he : e.1 = hash
      · have hmem : (hash, e.2) ∈ e :: rest := by
          have : (hash, e.2) = e := by
            rw [← he]
          rw [this]
          exact List.mem_cons_self e rest
        have hef : ¬ threshold < e.2.expiration_time := hexp e.2 hmem
        rw [FileManager.get_file_scan, if_pos he, if_neg hef]
        exact ih (acc ++ [e.1]) fun f hfm => hexp f (List.mem_cons_of_mem e hfm)
      · rw [FileManager.get_file_scan, if_neg he]
        exact ih acc fun f hfm => hexp f (List.mem_cons_of_mem e hfm)

/-- Helper: FileManager.get_file on a fresh cached entry returns its
FileData and leaves the cache untouched. -/
theorem get_file_hit (files : FileCache) (hash threshold : String)
    (f : File) (hnd : (List.map Prod.fst files).Nodup)
    (hm : (hash, f) ∈ files) (hf : threshold < f.expiration_time) :
    FileManager.get_file files hash threshold
      = (some { mime_type := f.mime_type, file_uri := f.uri }, files) := by
  obtain ⟨acc', hacc⟩ := get_file_scan_found hash threshold f files [] hnd hm hf
  unfold FileManager.get_file
  rw [hacc]

/-- Helper: FileManager.get_file misses when every entry under the hash is
expired, and only removes entries from the cache. -/
theorem get_file_miss (files : FileCache) (hash threshold : String)
    (hexp : ∀ f, (hash, f) ∈ files → ¬ threshold < f.expiration_time) :
    (FileManager.get_file files hash threshold).1 = none
    ∧ ∀ entry ∈ (FileManager.get_file files hash threshold).2,
        entry ∈ files := by
  have hns := get_file_scan_none hash threshold files [] hexp
  unfold FileManager.get_file
  rcases hscan : FileManager.get_file_scan hash threshold files []
    with ⟨fd, rem⟩
  rw [hscan] at hns
  simp at hns
  subst hns
  refine ⟨rfl, ?_⟩
  intro entry hentry
  exact List.mem_of_mem_filter hentry

/-- Claim C5: FileManager::add_file_from_bytes caches uploads by content
hash.  With unique cache keys: a cached entry under the digest of the
bytes whose expiration time compares after the now-plus-10-minutes
threshold is returned as is, independently of the upload outcome and
leaving the cache unchanged; otherwise the upload result is returned, the
uploaded File is inserted under the digest, and every other cache entry
was already present before the call. -/
theorem c5_add_file_from_bytes_cache (digest : List Nat → String)
    (upload : Except GemError File) (files : FileCache) (bytes : List Nat)
    (threshold : String) (hnd : (List.map Prod.fst files).Nodup) :
    (∀ f, (digest bytes, f) ∈ files → threshold < f.expiration_time →
        FileManager.add_file_from_bytes digest upload files bytes threshold
          = (Except.ok { mime_type := f.mime_type, file_uri := f.uri },
             files))
    ∧ ((∀ f, (digest bytes, f) ∈ files →
          ¬ threshold < f.expiration_time) →
        (∀ e, upload = Except.error e →
          (FileManager.add_file_from_bytes digest upload files bytes
              threshold).1 = Except.error e)
        ∧ (∀ file, upload = Except.ok file →
          (FileManager.add_file_from_bytes digest upload files bytes
              threshold).1
            = Except.ok { mime_type := file.mime_type
                          file_uri := file.uri }
          ∧ (digest bytes, file)
              ∈ (FileManager.add_file_from_bytes digest upload files bytes
                  threshold).2
          ∧ ∀ entry ∈ (FileManager.add_file_from_bytes digest upload files
                bytes threshold).2,
              entry.1 ≠ digest bytes → entry ∈ files)) := by
  constructor
  · intro f hm hf
    unfold FileManager.add_file_from_bytes
    rw [get_file_hit files (digest bytes) threshold f hnd hm hf]
  · intro hexp
    obtain ⟨h1, h2⟩ := get_file_miss files (digest bytes) threshold hexp
    unfold FileManager.add_file_from_bytes
    rcases hg : FileManager.get_file files (digest bytes) threshold
      with ⟨fd, files1⟩
    rw [hg] at h1 h2
    simp at h1
    subst h1
    constructor
    · intro e hu
      rw [hu]
    · intro file hu
      rw [hu]
      refine ⟨rfl, ?_, ?_⟩
      · simp [FileCache.insert]
      · intro entry hentry hne
        apply h2
        simp only [FileCache.insert, List.mem_append, List.mem_filter,
          List.mem_singleton] at hentry
        rcases hentry with ⟨hin, -⟩ | heq
        · exact hin
        · exact absurd (by rw [heq]) hne

/-- Witness for C5: a fresh cached entry is served from the cache with the
cache unchanged, and on a miss with a successful upload the new handle is
returned and inserted. -/
theorem c5_add_file_from_bytes_cache_witness :
    FileManager.add_file_from_bytes (fun _ => "h")
        (Except.error (GemError.FileError "unused"))
        [("h", sampleFile "ACTIVE" "2999-01-01T00:00:00+00:00")] [1, 2, 3]
        "2026-10-12T00:00:00+00:00"
      = (Except.ok { mime_type := "text/plain"
                     file_uri := "https://files/abc" },
         [("h", sampleFile "ACTIVE" "2999-01-01T00:00:00+00:00")])
    ∧ (FileManager.add_file_from_bytes (fun _ => "h")
        (Except.ok (sampleFile "ACTIVE" "2999-01-01T00:00:00+00:00")) []
        [1, 2, 3] "2026-10-12T00:00:00+00:00").1
      = Except.ok { mime_type := "text/plain"
                    file_uri := "https://files/abc" } := by
  refine ⟨?_, ?_⟩
  · exact (c5_add_file_from_bytes_cache (fun _ => "h")
        (Except.error (GemError.FileError "unused"))
        [("h", sampleFile "ACTIVE" "2999-01-01T00:00:00+00:00")] [1, 2, 3]
        "2026-10-12T00:00:00+00:00" (by simp)).1
      (sampleFile "ACTIVE" "2999-01-01T00:00:00+00:00")
      (List.mem_singleton.mpr rfl) (by simp [sampleFile] ; decide)
  · exact (((c5_add_file_from_bytes_cache (fun _ => "h")
        (Except.ok (sampleFile "ACTIVE" "2999-01-01T00:00:00+00:00")) []
        [1, 2, 3] "2026-10-12T00:00:00+00:00" (by simp)).2
      (fun f hf => absurd hf (by simp))).2
      (sampleFile "ACTIVE" "2999-01-01T00:00:00+00:00") rfl).1

end GemRs
